import Mathlib

/-!
Verification of the auto-dimmer brightness-sampling and adaptive-dimming core.

The TypeScript sources are shallowly embedded over exact rationals:
numbers become `ℚ`, nullable values become `Option`, objects become
structures, and the stateful control loop and transition engine become
explicit state-passing functions.
-/

namespace AutoDimmer

/-- Shallow embedding of `clamp` from `src/types.ts`:
`Math.max(min, Math.min(max, value))`. -/
def clamp (value lo hi : ℚ) : ℚ := max lo (min hi value)

/-! ## Dim policy (`src/utils/brightness.ts`, `calculateDimAmount`) -/

/-- Shallow embedding of `calculateDimAmount` from `src/utils/brightness.ts`. -/
def calculateDimAmount (brightness threshold maxIntensity : ℚ) (dynamicMode : Bool) : ℚ :=
  if brightness ≤ threshold then 0
  else if !dynamicMode then maxIntensity
  else
    let brightnessOverThreshold := brightness - threshold
    let maxOverThreshold := 1 - threshold
    let scaleFactor := if 0 < maxOverThreshold then brightnessOverThreshold / maxOverThreshold else 1
    maxIntensity * scaleFactor

/-- The piecewise reference definition of `computeDimAmount` taken from the
spec's own words (section 4.3): 0 at or below threshold; `maxIntensity` when
dynamic mode is off; otherwise the linear scale
`maxIntensity * (brightness - threshold) / (1 - threshold)`, with a
degenerate zero-or-negative divisor answered by `maxIntensity` with no
division performed. -/
def computeDimAmountSpec (brightness threshold maxIntensity : ℚ) (dynamicMode : Bool) : ℚ :=
  if brightness ≤ threshold then 0
  else if dynamicMode = false then maxIntensity
  else if 1 - threshold ≤ 0 then maxIntensity
  else maxIntensity * (brightness - threshold) / (1 - threshold)

/-! ## Hostname pattern matching (`src/utils/patterns.ts`) -/

/-- Shallow embedding of `matchesPattern` from `src/utils/patterns.ts`.
JavaScript's `a.includes(b)` (contiguous-substring containment) is modelled
as `b.data <:+: a.data` on the underlying character lists; the `!hostname`
and `!pattern` guards are emptiness tests, since the empty string is the
only falsy string. -/
def matchesPattern (hostname pattern : String) : Bool :=
  if hostname = "" ∨ pattern = "" then false
  else decide (pattern.data <:+: hostname.data) || decide (hostname.data <:+: pattern.data)

/-- Shallow embedding of `matchesAnyPattern` from `src/utils/patterns.ts`:
`patterns.some((pattern) => matchesPattern(hostname, pattern))`. -/
def matchesAnyPattern (hostname : String) (patterns : List String) : Bool :=
  patterns.any fun pattern => matchesPattern hostname pattern

/-! ## Color parsing (`src/utils/brightness.ts`, `getColorBrightness`)

The JavaScript code matches the regular expression
`rgba?\((\d+),\s*(\d+),\s*(\d+)(?:,\s*[\d.]+)?\)` against the color
string (unanchored, leftmost match).  Every quantifier in that pattern is
followed by a character disjoint from the quantified class, so greedy
matching never backtracks and the regex is equivalent to the
deterministic parser below, tried at each successive start position. -/

/-- The regex class `\d`: ASCII decimal digits. -/
def isDigitChar (c : Char) : Bool := 48 ≤ c.toNat && c.toNat ≤ 57

/-- The regex class `\s`: JavaScript whitespace code points. -/
def isJsSpace (c : Char) : Bool :=
  decide (c.toNat ∈ [9, 10, 11, 12, 13, 32, 160, 0x1680, 0x2000, 0x2001, 0x2002,
    0x2003, 0x2004, 0x2005, 0x2006, 0x2007, 0x2008, 0x2009, 0x200a, 0x2028,
    0x2029, 0x202f, 0x205f, 0x3000, 0xfeff])

/-- The regex class `[\d.]` used for the alpha component. -/
def isAlphaComponentChar (c : Char) : Bool := isDigitChar c || c = '.'

/-- `parseInt(ds, 10)` on a digit string, as a natural number. -/
def digitsToNat (ds : List Char) : ℕ :=
  ds.foldl (fun n c => 10 * n + (c.toNat - 48)) 0

/-- Match `(\d+)` at the head of the input: the maximal run of digits,
which must be nonempty, together with its numeric value and the rest. -/
def readNum (l : List Char) : Option (ℕ × List Char) :=
  let ds := l.takeWhile isDigitChar
  if ds = [] then none else some (digitsToNat ds, l.dropWhile isDigitChar)

/-- Match a literal comma at the head of the input. -/
def expectComma (l : List Char) : Option (List Char) :=
  match l with
  | ',' :: t => some t
  | _ => none

/-- Match the tail `(?:,\s*[\d.]+)?\)` of the regex: either a closing
parenthesis directly, or a comma, optional whitespace, a nonempty run of
digits and dots (the ignored alpha component), then a closing
parenthesis. -/
def closeAfterBlue (r g b : ℕ) (l : List Char) : Option (ℕ × ℕ × ℕ) :=
  match l with
  | ')' :: _ => some (r, g, b)
  | ',' :: t =>
    let t1 := t.dropWhile isJsSpace
    let alpha := t1.takeWhile isAlphaComponentChar
    if alpha = [] then none
    else
      match t1.dropWhile isAlphaComponentChar with
      | ')' :: _ => some (r, g, b)
      | _ => none
  | _ => none

/-- Match the part of the regex after the opening parenthesis:
`(\d+),\s*(\d+),\s*(\d+)(?:,\s*[\d.]+)?\)`. -/
def matchAfterParen (l : List Char) : Option (ℕ × ℕ × ℕ) := do
  let (r, l1) ← readNum l
  let l2 ← expectComma l1
  let (g, l3) ← readNum (l2.dropWhile isJsSpace)
  let l4 ← expectComma l3
  let (b, l5) ← readNum (l4.dropWhile isJsSpace)
  closeAfterBlue r g b l5

/-- Match the regex at one fixed start position: the literal `rgb`, an
optional `a`, an opening parenthesis, then the channel components. -/
def matchAt (l : List Char) : Option (ℕ × ℕ × ℕ) :=
  match l with
  | 'r' :: 'g' :: 'b' :: 'a' :: '(' :: rest => matchAfterParen rest
  | 'r' :: 'g' :: 'b' :: '(' :: rest => matchAfterParen rest
  | _ => none

/-- Unanchored leftmost matching, as `String.prototype.match` performs:
try the pattern at each successive start position. -/
def findMatch : List Char → Option (ℕ × ℕ × ℕ)
  | [] => none
  | c :: r =>
    match matchAt (c :: r) with
    | some v => some v
    | none => findMatch r

/-- The luminance combination computed by `getColorBrightness` once the
channel values are parsed: `0.299 * (r/255) + 0.587 * (g/255) + 0.114 * (b/255)`. -/
def luminance (r g b : ℕ) : ℚ :=
  299 / 1000 * ((r : ℚ) / 255) + 587 / 1000 * ((g : ℚ) / 255) + 114 / 1000 * ((b : ℚ) / 255)

/-- Shallow embedding of `getColorBrightness` from `src/utils/brightness.ts`:
the falsy/`"transparent"`/`"rgba(0, 0, 0, 0)"` guard, then the regex match,
returning `none` where the code returns `null`. -/
def getColorBrightness (colorStr : String) : Option ℚ :=
  if colorStr = "" ∨ colorStr = "transparent" ∨ colorStr = "rgba(0, 0, 0, 0)" then none
  else
    match findMatch colorStr.data with
    | some (r, g, b) => some (luminance r g b)
    | none => none

/-- A well-formed `rgb(r,g,b)` color string, with the channels given by
digit strings and whitespace permitted after each comma. -/
def rgbString (rs ws1 gs ws2 bs : List Char) : String :=
  ⟨'r' :: 'g' :: 'b' :: '(' ::
    (rs ++ ',' :: (ws1 ++ (gs ++ ',' :: (ws2 ++ (bs ++ [')'])))))⟩

/-- A well-formed `rgba(r,g,b,a)` color string, with the channels given by
digit strings, the alpha component by a digit-or-dot string, and
whitespace permitted after each comma. -/
def rgbaString (rs ws1 gs ws2 bs ws3 al : List Char) : String :=
  ⟨'r' :: 'g' :: 'b' :: 'a' :: '(' ::
    (rs ++ ',' :: (ws1 ++ (gs ++ ',' :: (ws2 ++ (bs ++ ',' :: (ws3 ++ (al ++ [')'])))))))⟩

lemma takeWhile_all_append (p : Char → Bool) (l : List Char) (c : Char) (r : List Char)
    (hl : ∀ x ∈ l, p x = true) (hc : p c = false) :
    (l ++ c :: r).takeWhile p = l ∧ (l ++ c :: r).dropWhile p = c :: r := by
  induction l with
  | nil => simp [List.takeWhile_cons, List.dropWhile_cons, hc]
  | cons a l ih =>
    have ha : p a = true := hl a (by simp)
    have h2 := ih fun x hx => hl x (by simp [hx])
    simp [List.takeWhile_cons, List.dropWhile_cons, ha, h2.1, h2.2]

lemma digit_not_space {c : Char} (h : isDigitChar c = true) : isJsSpace c = false := by
  simp only [isDigitChar, Bool.and_eq_true, decide_eq_true_eq] at h
  simp only [isJsSpace, decide_eq_false_iff_not, List.mem_cons, List.not_mem_nil, or_false]
  push_neg
  omega

lemma alphaComponent_not_space {c : Char} (h : isAlphaComponentChar c = true) :
    isJsSpace c = false := by
  simp only [isAlphaComponentChar, Bool.or_eq_true, decide_eq_true_eq] at h
  rcases h with h | h
  · exact digit_not_space h
  · subst h; rfl

lemma readNum_spec (ds : List Char) (c : Char) (r : List Char)
    (hne : ds ≠ []) (hds : ∀ x ∈ ds, isDigitChar x = true) (hc : isDigitChar c = false) :
    readNum (ds ++ c :: r) = some (digitsToNat ds, c :: r) := by
  have h := takeWhile_all_append isDigitChar ds c r hds hc
  simp [readNum, h.1, h.2, hne]

lemma dropSpaces_spec (ws : List Char) (c : Char) (r : List Char)
    (hws : ∀ x ∈ ws, isJsSpace x = true) (hc : isJsSpace c = false) :
    (ws ++ c :: r).dropWhile isJsSpace = c :: r :=
  (takeWhile_all_append isJsSpace ws c r hws hc).2

lemma readNum_after_spaces (ws ds : List Char) (c : Char) (r : List Char)
    (hws : ∀ x ∈ ws, isJsSpace x = true) (hne : ds ≠ [])
    (hds : ∀ x ∈ ds, isDigitChar x = true) (hc : isDigitChar c = false) :
    readNum ((ws ++ (ds ++ c :: r)).dropWhile isJsSpace) = some (digitsToNat ds, c :: r) := by
  obtain ⟨d, ds', rfl⟩ := List.exists_cons_of_ne_nil hne
  have hd : isDigitChar d = true := hds d (by simp)
  have h1 : ws ++ (d :: ds' ++ c :: r) = ws ++ d :: (ds' ++ c :: r) := by simp
  rw [h1, dropSpaces_spec ws d (ds' ++ c :: r) hws (digit_not_space hd)]
  have h2 : d :: (ds' ++ c :: r) = (d :: ds') ++ c :: r := by simp
  rw [h2, readNum_spec (d :: ds') c r (by simp) hds hc]

lemma matchAfterParen_spec (rs ws1 gs ws2 bs : List Char) (c : Char) (tail : List Char)
    (hrs : rs ≠ []) (hrsd : ∀ x ∈ rs, isDigitChar x = true)
    (hws1 : ∀ x ∈ ws1, isJsSpace x = true)
    (hgs : gs ≠ []) (hgsd : ∀ x ∈ gs, isDigitChar x = true)
    (hws2 : ∀ x ∈ ws2, isJsSpace x = true)
    (hbs : bs ≠ []) (hbsd : ∀ x ∈ bs, isDigitChar x = true)
    (hc : isDigitChar c = false) :
    matchAfterParen (rs ++ ',' :: (ws1 ++ (gs ++ ',' :: (ws2 ++ (bs ++ c :: tail))))) =
      closeAfterBlue (digitsToNat rs) (digitsToNat gs) (digitsToNat bs) (c :: tail) := by
  rw [matchAfterParen]
  rw [readNum_spec rs ',' _ hrs hrsd (by decide)]
  simp only [Option.bind_eq_bind, Option.some_bind, expectComma]
  rw [readNum_after_spaces ws1 gs ',' _ hws1 hgs hgsd (by decide)]
  simp only [Option.some_bind, expectComma]
  rw [readNum_after_spaces ws2 bs c tail hws2 hbs hbsd hc]
  simp only [Option.some_bind]

lemma closeAfterBlue_alpha (r g b : ℕ) (ws3 al : List Char)
    (hws3 : ∀ x ∈ ws3, isJsSpace x = true)
    (hal : al ≠ []) (hald : ∀ x ∈ al, isAlphaComponentChar x = true) :
    closeAfterBlue r g b (',' :: (ws3 ++ (al ++ [')']))) = some (r, g, b) := by
  obtain ⟨a, al', rfl⟩ := List.exists_cons_of_ne_nil hal
  have h1 : ws3 ++ (a :: al' ++ [')']) = ws3 ++ a :: (al' ++ [')']) := by simp
  have ha : isAlphaComponentChar a = true := hald a (by simp)
  rw [closeAfterBlue, h1,
    dropSpaces_spec ws3 a (al' ++ [')']) hws3 (alphaComponent_not_space ha)]
  have h2 : a :: (al' ++ [')']) = (a :: al') ++ ')' :: [] := by simp
  rw [h2]
  have h3 := takeWhile_all_append isAlphaComponentChar (a :: al') ')' [] hald (by decide)
  simp only [List.cons_append] at h3 ⊢
  simp [h3.1, h3.2, ha]

lemma getColorBrightness_rgbString (rs ws1 gs ws2 bs : List Char)
    (hrs : rs ≠ []) (hrsd : ∀ x ∈ rs, isDigitChar x = true)
    (hws1 : ∀ x ∈ ws1, isJsSpace x = true)
    (hgs : gs ≠ []) (hgsd : ∀ x ∈ gs, isDigitChar x = true)
    (hws2 : ∀ x ∈ ws2, isJsSpace x = true)
    (hbs : bs ≠ []) (hbsd : ∀ x ∈ bs, isDigitChar x = true) :
    getColorBrightness (rgbString rs ws1 gs ws2 bs) =
      some (luminance (digitsToNat rs) (digitsToNat gs) (digitsToNat bs)) := by
  rw [getColorBrightness, if_neg]
  · have hdata : (rgbString rs ws1 gs ws2 bs).data =
        'r' :: 'g' :: 'b' :: '(' ::
          (rs ++ ',' :: (ws1 ++ (gs ++ ',' :: (ws2 ++ (bs ++ [')']))))) := rfl
    rw [hdata, findMatch, matchAt]
    rw [matchAfterParen_spec rs ws1 gs ws2 bs ')' [] hrs hrsd hws1 hgs hgsd hws2 hbs hbsd
      (by decide)]
    rfl
  · push_neg
    refine ⟨?_, ?_, ?_⟩ <;> simp [rgbString, String.ext_iff]

lemma getColorBrightness_rgbaString (rs ws1 gs ws2 bs ws3 al : List Char)
    (hrs : rs ≠ []) (hrsd : ∀ x ∈ rs, isDigitChar x = true)
    (hws1 : ∀ x ∈ ws1, isJsSpace x = true)
    (hgs : gs ≠ []) (hgsd : ∀ x ∈ gs, isDigitChar x = true)
    (hws2 : ∀ x ∈ ws2, isJsSpace x = true)
    (hbs : bs ≠ []) (hbsd : ∀ x ∈ bs, isDigitChar x = true)
    (hws3 : ∀ x ∈ ws3, isJsSpace x = true)
    (hal : al ≠ []) (hald : ∀ x ∈ al, isAlphaComponentChar x = true)
    (hguard : rgbaString rs ws1 gs ws2 bs ws3 al ≠ "rgba(0, 0, 0, 0)") :
    getColorBrightness (rgbaString rs ws1 gs ws2 bs ws3 al) =
      some (luminance (digitsToNat rs) (digitsToNat gs) (digitsToNat bs)) := by
  rw [getColorBrightness, if_neg]
  · have hdata : (rgbaString rs ws1 gs ws2 bs ws3 al).data =
        'r' :: 'g' :: 'b' :: 'a' :: '(' ::
          (rs ++ ',' :: (ws1 ++ (gs ++ ',' ::
            (ws2 ++ (bs ++ ',' :: (ws3 ++ (al ++ [')']))))))) := rfl
    rw [hdata, findMatch, matchAt]
    rw [matchAfterParen_spec rs ws1 gs ws2 bs ',' (ws3 ++ (al ++ [')']))
      hrs hrsd hws1 hgs hgsd hws2 hbs hbsd (by decide)]
    rw [closeAfterBlue_alpha _ _ _ ws3 al hws3 hal hald]
  · push_neg
    refine ⟨?_, ?_, hguard⟩ <;> simp [rgbaString, String.ext_iff]

/-! ## Transition engine (`src/utils/animation.ts`)

The `AnimationState` record carries `frameId`, `currentLevel` and
`targetLevel` exactly as in the source; the `animate` closure created by
`animateDimLevel` captures `startLevel`, `startTime` and the requested
`duration`, so the embedding stores those alongside the record.  A
scheduled `requestAnimationFrame` callback is modelled by `frameId`
being non-`none`; running it once is the `stepFrame` transition, whose
argument is the frame's `currentTime` timestamp.  Each operation returns
the list of levels passed to `onUpdate`, so that callback invocations
are observable. -/

structure EngineState where
  frameId : Option ℕ
  currentLevel : ℚ
  targetLevel : ℚ
  startLevel : ℚ
  startTime : ℚ
  duration : ℚ
  deriving DecidableEq, Repr

/-- Shallow embedding of `createAnimationState`. -/
def createAnimationState : EngineState :=
  { frameId := none, currentLevel := 0, targetLevel := 0,
    startLevel := 0, startTime := 0, duration := 0 }

/-- Shallow embedding of `cancelAnimation`: if a frame callback is
scheduled, unschedule it and clear the handle. -/
def cancelAnimation (s : EngineState) : EngineState :=
  if s.frameId ≠ none then { s with frameId := none } else s

/-- Shallow embedding of the body of `animateDimLevel` up to scheduling
the first frame: clamp the requested target, return unchanged below the
5% deadband, otherwise store the new target, cancel any running
animation, capture the start level and start time, and schedule the
`animate` callback. -/
def animateDimLevel (s : EngineState) (targetLevel duration now : ℚ) :
    EngineState × List ℚ :=
  let newTarget := clamp targetLevel 0 1
  if |newTarget - s.targetLevel| < 5 / 100 then (s, [])
  else
    let s1 := cancelAnimation { s with targetLevel := newTarget }
    ({ s1 with startLevel := clamp s1.currentLevel 0 1, startTime := now,
               duration := duration, frameId := some 0 }, [])

/-- Shallow embedding of one run of the `animate` frame callback at
timestamp `currentTime`: linear interpolation from the captured start
level toward the target, clamped, reported through `onUpdate`, and
either rescheduled (`progress < 1`) or finished (handle cleared). -/
def stepFrame (s : EngineState) (currentTime : ℚ) : EngineState × List ℚ :=
  match s.frameId with
  | none => (s, [])
  | some _ =>
    let elapsed := currentTime - s.startTime
    let progress := min (elapsed / s.duration) 1
    let cur := clamp (s.startLevel + (s.targetLevel - s.startLevel) * progress) 0 1
    ({ s with currentLevel := cur,
              frameId := if progress < 1 then some 0 else none }, [cur])

/-- Shallow embedding of `setDimLevelImmediate`: cancel any running
animation, clamp, set both levels, report once. -/
def setDimLevelImmediate (s : EngineState) (level : ℚ) : EngineState × List ℚ :=
  let s1 := cancelAnimation s
  let c := clamp level 0 1
  ({ s1 with currentLevel := c, targetLevel := c }, [c])

/-! ## Settings and per-site overrides (`src/types.ts`, `src/utils/settings.ts`) -/

structure SiteSettings where
  enabled : Option Bool
  dimIntensity : Option ℚ
  deriving DecidableEq

structure Settings where
  enabled : Bool
  dimIntensity : ℚ
  brightnessThreshold : ℚ
  dynamicMode : Bool
  smoothing : Bool
  smoothingDuration : ℚ
  siteSettings : List (String × SiteSettings)
  blacklist : List String
  whitelist : List String
  deriving DecidableEq

/-- Shallow embedding of `getEffectiveSettings` from `src/utils/settings.ts`:
`{ ...settings, ...siteOverride }`, where an override field that is
present replaces the global one. -/
def getEffectiveSettings (settings : Settings) (hostname : String) : Settings :=
  match settings.siteSettings.lookup hostname with
  | some siteOverride =>
    { settings with
      enabled := siteOverride.enabled.getD settings.enabled,
      dimIntensity := siteOverride.dimIntensity.getD settings.dimIntensity }
  | none => settings

/-- Shallow embedding of `isBlacklisted` from `src/utils/settings.ts`. -/
def isBlacklisted (settings : Settings) (hostname : String) : Bool :=
  matchesAnyPattern hostname settings.blacklist

/-- Shallow embedding of `isWhitelisted` from `src/utils/settings.ts`. -/
def isWhitelisted (settings : Settings) (hostname : String) : Bool :=
  matchesAnyPattern hostname settings.whitelist

/-! ## Control loop (`src/content.ts`) -/

/-- The mutable module-level state of the content script: the settings
snapshot, the re-entrancy flag, the raw and exponentially smoothed
brightness readings (`null` before the first sample), the last applied
dim amount, and the animation state. -/
structure ContentState where
  settings : Settings
  isChecking : Bool
  lastBrightness : Option ℚ
  smoothedBrightness : Option ℚ
  lastAppliedDim : ℚ
  anim : EngineState
  deriving DecidableEq

/-- `effectiveSettings.smoothingDuration || DEFAULT_TRANSITION_DURATION`:
zero is the only falsy duration. -/
def effDuration (eff : Settings) : ℚ :=
  if eff.smoothingDuration = 0 then 500 else eff.smoothingDuration

/-- Shallow embedding of `setDimLevel` from `src/content.ts`: animate when
the effective `smoothing` flag is set, otherwise snap immediately. -/
def setDimLevel (hostname : String) (level now : ℚ) (settings : Settings)
    (anim : EngineState) : EngineState × List ℚ :=
  let eff := getEffectiveSettings settings hostname
  if eff.smoothing then animateDimLevel anim level (effDuration eff) now
  else setDimLevelImmediate anim level

/-- Shallow embedding of one `checkAndDim` cycle from `src/content.ts`.
The DOM sampling call `samplePageBrightness(OVERLAY_ID)` is abstracted
by the `raw` argument, and the returned flag records whether that call
was reached; the returned `Option ℚ` is the dim amount the cycle drives
toward (`none` when the re-entrancy guard rejects the cycle).  The
fire-and-forget `saveSiteState` write has no effect on this state. -/
def checkAndDim (hostname : String) (raw now : ℚ) (s : ContentState) :
    ContentState × Option ℚ × Bool :=
  if s.isChecking then (s, none, false)
  else
    let eff := getEffectiveSettings s.settings hostname
    if !eff.enabled || isBlacklisted s.settings hostname then
      if s.lastAppliedDim ≠ 0 then
        let anim1 := (setDimLevel hostname 0 now s.settings s.anim).1
        ({ s with anim := anim1, lastAppliedDim := 0 }, some 0, false)
      else (s, some 0, false)
    else
      let smoothed :=
        match s.smoothedBrightness with
        | none => raw
        | some prev => 3 / 10 * raw + (1 - 3 / 10) * prev
      let dimAmount :=
        if isWhitelisted s.settings hostname then eff.dimIntensity
        else calculateDimAmount smoothed eff.brightnessThreshold eff.dimIntensity
          eff.dynamicMode
      let s1 := { s with lastBrightness := some raw, smoothedBrightness := some smoothed }
      if 3 / 100 ≤ |dimAmount - s.lastAppliedDim| then
        let anim1 := (setDimLevel hostname dimAmount now s.settings s.anim).1
        ({ s1 with anim := anim1, lastAppliedDim := dimAmount }, some dimAmount, true)
      else (s1, some dimAmount, true)

/-! ## Brightness sampling (`src/utils/brightness.ts`, `samplePageBrightness`)

The DOM oracles are abstracted into an environment: `pointColor x y` is
the computed background color of the topmost non-overlay element at grid
point `(x, y)` (`none` when `elementsFromPoint` yields no such element),
`bodyColor` is the body's background color when `document.body` exists,
and `htmlColor` is the root element's background color. -/

structure SampleEnv where
  pointColor : ℕ → ℕ → Option String
  bodyColor : Option String
  htmlColor : String

/-- The 10×10 grid of sample points of `samplePageBrightness`,
in loop order (`x` outer, `y` inner). -/
def gridPoints : List (ℕ × ℕ) :=
  (List.range 10).flatMap fun x => (List.range 10).map fun y => (x, y)

/-- One iteration of the grid sampling loop: add the parsed background
brightness to the running total and count it, otherwise change nothing. -/
def gridStep (env : SampleEnv) (tc : ℚ × ℚ) (xy : ℕ × ℕ) : ℚ × ℚ :=
  match env.pointColor xy.1 xy.2 with
  | some s =>
    match getColorBrightness s with
    | some b => (tc.1 + b, tc.2 + 1)
    | none => tc
  | none => tc

/-- The grid phase of `samplePageBrightness`: `totalBrightness` and
`sampleCount` after the double loop. -/
def gridAccum (env : SampleEnv) : ℚ × ℚ :=
  gridPoints.foldl (gridStep env) (0, 0)

/-- Shallow embedding of `samplePageBrightness` from
`src/utils/brightness.ts`: grid sampling, then the body and root
backgrounds each weighted by half of `baseWeight = max(sampleCount, 1)`,
then the weighted average, with `0.5` as the zero-sample default. -/
def samplePageBrightness (env : SampleEnv) : ℚ :=
  let tc := gridAccum env
  let baseWeight : ℚ := max tc.2 1
  let tc1 :=
    match env.bodyColor with
    | some s =>
      match getColorBrightness s with
      | some b => (tc.1 + b * baseWeight * (1 / 2), tc.2 + baseWeight * (1 / 2))
      | none => tc
    | none => tc
  let tc2 :=
    match getColorBrightness env.htmlColor with
    | some b => (tc1.1 + b * baseWeight * (1 / 2), tc1.2 + baseWeight * (1 / 2))
    | none => tc1
  if 0 < tc2.2 then tc2.1 / tc2.2 else 1 / 2

/-! ## Claim theorems -/

/-- Claim C1: `calculateDimAmount` equals the reference piecewise
definition: 0 at or below the threshold; `maxIntensity` when dynamic
mode is off; otherwise `maxIntensity * (brightness - threshold) / (1 - threshold)`,
except that a zero-or-negative divisor yields `maxIntensity` with no
division performed. -/
theorem calculateDimAmount_eq_spec (brightness threshold maxIntensity : ℚ)
    (dynamicMode : Bool) :
    calculateDimAmount brightness threshold maxIntensity dynamicMode =
      computeDimAmountSpec brightness threshold maxIntensity dynamicMode := by
  cases dynamicMode with
  | false => simp [calculateDimAmount, computeDimAmountSpec]
  | true =>
    simp only [calculateDimAmount, computeDimAmountSpec, Bool.not_true, Bool.false_eq_true,
      if_false, reduceCtorEq]
    split_ifs with h1 h2 h3 <;> first
      | rfl
      | (exact absurd h3 (by linarith))
      | (exact absurd h2 (by linarith))
      | (rw [mul_div_assoc])
      | (exact mul_one maxIntensity)

/-- Claim C5: `matchesPattern` is true exactly when the two strings are
nonempty and one contains the other as a contiguous substring, and is
false whenever either is empty; `matchesAnyPattern` has any-match
semantics over the pattern list, so the empty list never matches; and
the two concrete examples from the spec hold. -/
theorem matchesPattern_spec (hostname pattern : String) (patterns : List String) :
    (matchesPattern hostname pattern = true ↔
      hostname ≠ "" ∧ pattern ≠ "" ∧
        (pattern.data <:+: hostname.data ∨ hostname.data <:+: pattern.data)) ∧
    (matchesAnyPattern hostname patterns = true ↔
      ∃ p ∈ patterns, matchesPattern hostname p = true) ∧
    matchesAnyPattern hostname [] = false ∧
    matchesPattern "www.example.com" "example.com" = true ∧
    matchesPattern "google.com" "facebook.com" = false := by
  refine ⟨?_, ?_, rfl, by decide, by decide⟩
  · unfold matchesPattern
    split_ifs with h
    · simp only [Bool.false_eq_true, false_iff]
      tauto
    · push_neg at h
      simp [h.1, h.2]
  · simp [matchesAnyPattern, List.any_eq_true]

/-- Claim C6: for a fixed threshold below 1 and a nonnegative maximum
intensity, dynamic-mode `calculateDimAmount` is monotone non-decreasing
in brightness on `threshold < brightness ≤ 1`, equals `maxIntensity`
exactly at brightness 1, and tends to 0 as brightness approaches the
threshold from above. -/
theorem calculateDimAmount_dynamic_shape (threshold maxIntensity : ℚ)
    (ht : threshold < 1) (hm : 0 ≤ maxIntensity) :
    (∀ b1 b2, threshold < b1 → b1 ≤ b2 → b2 ≤ 1 →
      calculateDimAmount b1 threshold maxIntensity true ≤
        calculateDimAmount b2 threshold maxIntensity true) ∧
    calculateDimAmount 1 threshold maxIntensity true = maxIntensity ∧
    (∀ ε : ℚ, 0 < ε → ∃ δ : ℚ, 0 < δ ∧ ∀ b, threshold < b → b - threshold < δ →
      |calculateDimAmount b threshold maxIntensity true| < ε) := by
  have hpos : 0 < 1 - threshold := by linarith
  have hform : ∀ b, threshold < b →
      calculateDimAmount b threshold maxIntensity true =
        maxIntensity * ((b - threshold) / (1 - threshold)) := by
    intro b hb
    simp only [calculateDimAmount, Bool.not_true, Bool.false_eq_true, if_false,
      reduceCtorEq]
    rw [if_neg (not_le.mpr hb), if_pos hpos]
  refine ⟨?_, ?_, ?_⟩
  · intro b1 b2 h1 h12 h2
    rw [hform b1 h1, hform b2 (lt_of_lt_of_le h1 h12)]
    gcongr
  · rw [hform 1 ht, div_self (ne_of_gt hpos), mul_one]
  · intro ε hε
    refine ⟨ε * (1 - threshold) / (maxIntensity + 1), by positivity, ?_⟩
    intro b hb hbδ
    rw [hform b hb]
    have hnn : 0 ≤ maxIntensity * ((b - threshold) / (1 - threshold)) :=
      mul_nonneg hm (div_nonneg (by linarith) (le_of_lt hpos))
    rw [abs_of_nonneg hnn]
    have hmul : (b - threshold) * (maxIntensity + 1) < ε * (1 - threshold) :=
      (lt_div_iff₀ (by positivity)).mp hbδ
    rw [← mul_div_assoc, div_lt_iff₀ hpos]
    nlinarith [hb, hm, hε, hpos, hmul]

/-- Closed witness for the hypotheses of `calculateDimAmount_dynamic_shape`,
instantiated at threshold 3/5 and maximum intensity 1/2. -/
theorem calculateDimAmount_dynamic_shape_witness :
    (3 / 5 : ℚ) < 1 ∧ (0 : ℚ) ≤ 1 / 2 ∧
      ((∀ b1 b2 : ℚ, 3 / 5 < b1 → b1 ≤ b2 → b2 ≤ 1 →
        calculateDimAmount b1 (3 / 5) (1 / 2) true ≤
          calculateDimAmount b2 (3 / 5) (1 / 2) true) ∧
      calculateDimAmount 1 (3 / 5) (1 / 2) true = 1 / 2 ∧
      (∀ ε : ℚ, 0 < ε → ∃ δ : ℚ, 0 < δ ∧ ∀ b, 3 / 5 < b → b - 3 / 5 < δ →
        |calculateDimAmount b (3 / 5) (1 / 2) true| < ε)) :=
  ⟨by norm_num, by norm_num,
    calculateDimAmount_dynamic_shape (3 / 5) (1 / 2) (by norm_num) (by norm_num)⟩

lemma clamp01_nonneg (v : ℚ) : 0 ≤ clamp v 0 1 := le_max_left 0 _

lemma clamp01_le_one (v : ℚ) : clamp v 0 1 ≤ 1 := max_le (by norm_num) (min_le_left 1 v)

lemma clamp01_eq_self {v : ℚ} (h0 : 0 ≤ v) (h1 : v ≤ 1) : clamp v 0 1 = v := by
  unfold clamp
  rw [min_eq_right h1, max_eq_right h0]

lemma cancelAnimation_frameId (s : EngineState) : (cancelAnimation s).frameId = none := by
  unfold cancelAnimation
  split_ifs with h
  · rfl
  · push_neg at h
    exact h

lemma cancelAnimation_of_idle {s : EngineState} (h : s.frameId = none) :
    cancelAnimation s = s := by
  unfold cancelAnimation
  simp [h]

lemma cancelAnimation_levels (s : EngineState) :
    (cancelAnimation s).currentLevel = s.currentLevel ∧
      (cancelAnimation s).targetLevel = s.targetLevel := by
  unfold cancelAnimation
  split_ifs <;> exact ⟨rfl, rfl⟩

/-- The engine states reachable by creating a state and then applying
`animateDimLevel` requests, frame-callback runs, and
`setDimLevelImmediate` calls, in any order — every operation of the
transition engine except an external `cancelAnimation`. -/
inductive EngineReached : EngineState → Prop where
  | init : EngineReached createAnimationState
  | animate (s : EngineState) (t d now : ℚ) :
      EngineReached s → EngineReached (animateDimLevel s t d now).1
  | frame (s : EngineState) (tf : ℚ) :
      EngineReached s → EngineReached (stepFrame s tf).1
  | immediate (s : EngineState) (l : ℚ) :
      EngineReached s → EngineReached (setDimLevelImmediate s l).1

lemma engineReached_invariant (s : EngineState) (h : EngineReached s) :
    (s.frameId = none → s.currentLevel = s.targetLevel) ∧
      0 ≤ s.targetLevel ∧ s.targetLevel ≤ 1 := by
  induction h with
  | init => exact ⟨fun _ => rfl, le_refl 0, by norm_num [createAnimationState]⟩
  | animate s t d now _ ih =>
    by_cases hdb : |clamp t 0 1 - s.targetLevel| < 5 / 100
    · simpa [animateDimLevel, hdb] using ih
    · have hlv := cancelAnimation_levels { s with targetLevel := clamp t 0 1 }
      simp only [animateDimLevel, hdb, if_false]
      refine ⟨fun hfr => by simp at hfr, ?_, ?_⟩ <;>
        rw [hlv.2] <;> simp [clamp01_nonneg, clamp01_le_one]
  | frame s tf _ ih =>
    rcases hf : s.frameId with _ | n
    · simpa [stepFrame, hf] using ih
    · simp only [stepFrame, hf]
      refine ⟨?_, ih.2.1, ih.2.2⟩
      intro hfin
      by_cases hp : min ((tf - s.startTime) / s.duration) 1 < 1
      · simp [hp] at hfin
      · have hp1 : min ((tf - s.startTime) / s.duration) 1 = 1 :=
          le_antisymm (min_le_right _ _) (not_lt.mp hp)
        rw [hp1]
        have harith : s.startLevel + (s.targetLevel - s.startLevel) * 1 = s.targetLevel := by
          ring
        rw [harith]
        exact clamp01_eq_self ih.2.1 ih.2.2
  | immediate s l _ ih =>
    have hlv := cancelAnimation_levels s
    refine ⟨fun _ => rfl, ?_, ?_⟩ <;>
      simp [setDimLevelImmediate, clamp01_nonneg, clamp01_le_one]

/-- Claim C9 counterexample: the state obtained by creating an animation
state, requesting a target of 1, and then calling `cancelAnimation`
mid-flight has a cleared frame handle (Idle) yet `currentLevel = 0` and
`targetLevel = 1`, so the claimed invariant "frame handle null implies
`currentLevel == targetLevel`" fails on a reachable state. -/
theorem engine_idle_invariant_counterexample :
    (cancelAnimation (animateDimLevel createAnimationState 1 500 0).1).frameId = none ∧
    (cancelAnimation (animateDimLevel createAnimationState 1 500 0).1).currentLevel = 0 ∧
    (cancelAnimation (animateDimLevel createAnimationState 1 500 0).1).targetLevel = 1 := by
  norm_num [createAnimationState, animateDimLevel, cancelAnimation, clamp]
  simp

/-- Claim C9, amended: in every state reachable by `createAnimationState`,
`animateDimLevel` (including each per-frame step) and
`setDimLevelImmediate`, a cleared frame handle implies
`currentLevel = targetLevel`; `cancelAnimation` always clears the frame
handle and is idempotent, but calling it mid-animation can leave
`currentLevel ≠ targetLevel` (previous theorem). -/
theorem engine_idle_invariant (s : EngineState) (hs : EngineReached s) :
    (s.frameId = none → s.currentLevel = s.targetLevel) ∧
    (∀ u : EngineState, (cancelAnimation u).frameId = none ∧
      cancelAnimation (cancelAnimation u) = cancelAnimation u) := by
  exact ⟨(engineReached_invariant s hs).1, fun u =>
    ⟨cancelAnimation_frameId u, cancelAnimation_of_idle (cancelAnimation_frameId u)⟩⟩

/-- Closed witness for `engine_idle_invariant` at the freshly created
state, whose reachability is immediate. -/
theorem engine_idle_invariant_witness :
    ((createAnimationState.frameId = none →
        createAnimationState.currentLevel = createAnimationState.targetLevel) ∧
     (∀ u : EngineState, (cancelAnimation u).frameId = none ∧
        cancelAnimation (cancelAnimation u) = cancelAnimation u)) :=
  engine_idle_invariant createAnimationState EngineReached.init

/-- The range invariant of claim C10: both levels lie in `[0, 1]`. -/
def levelsInRange (s : EngineState) : Prop :=
  0 ≤ s.currentLevel ∧ s.currentLevel ≤ 1 ∧ 0 ≤ s.targetLevel ∧ s.targetLevel ≤ 1

/-- Claim C10: every transition-engine operation preserves
`levelsInRange`, even for out-of-range requested levels, and every value
handed to the `onUpdate` callback lies in `[0, 1]`;
`createAnimationState` establishes the invariant. -/
theorem engine_ops_preserve_range (s : EngineState) (t d now tf l : ℚ)
    (hs : levelsInRange s) :
    (levelsInRange (animateDimLevel s t d now).1 ∧
      ∀ v ∈ (animateDimLevel s t d now).2, 0 ≤ v ∧ v ≤ 1) ∧
    (levelsInRange (stepFrame s tf).1 ∧
      ∀ v ∈ (stepFrame s tf).2, 0 ≤ v ∧ v ≤ 1) ∧
    (levelsInRange (setDimLevelImmediate s l).1 ∧
      ∀ v ∈ (setDimLevelImmediate s l).2, 0 ≤ v ∧ v ≤ 1) ∧
    levelsInRange (cancelAnimation s) ∧
    levelsInRange createAnimationState := by
  obtain ⟨hc0, hc1, ht0, ht1⟩ := hs
  refine ⟨⟨?_, ?_⟩, ⟨?_, ?_⟩, ⟨?_, ?_⟩, ?_, ?_⟩
  · by_cases hdb : |clamp t 0 1 - s.targetLevel| < 5 / 100
    · simp only [animateDimLevel, hdb, if_true]
      exact ⟨hc0, hc1, ht0, ht1⟩
    · have hlv := cancelAnimation_levels { s with targetLevel := clamp t 0 1 }
      simp only [animateDimLevel, hdb, if_false]
      refine ⟨?_, ?_, ?_, ?_⟩ <;> rw [hlv.1] <;> try rw [hlv.2]
      · exact hc0
      · exact hc1
      · exact clamp01_nonneg t
      · exact clamp01_le_one t
  · by_cases hdb : |clamp t 0 1 - s.targetLevel| < 5 / 100 <;>
      simp [animateDimLevel, hdb]
  · rcases hf : s.frameId with _ | n
    · simp only [stepFrame, hf]
      exact ⟨hc0, hc1, ht0, ht1⟩
    · simp only [stepFrame, hf]
      exact ⟨clamp01_nonneg _, clamp01_le_one _, ht0, ht1⟩
  · rcases hf : s.frameId with _ | n <;> simp [stepFrame, hf]
    exact ⟨clamp01_nonneg _, clamp01_le_one _⟩
  · have hlv := cancelAnimation_levels s
    exact ⟨clamp01_nonneg _, clamp01_le_one _, clamp01_nonneg _, clamp01_le_one _⟩
  · simp only [setDimLevelImmediate]
    intro v hv
    simp at hv
    subst hv
    exact ⟨clamp01_nonneg _, clamp01_le_one _⟩
  · have hlv := cancelAnimation_levels s
    exact ⟨hlv.1 ▸ hc0, hlv.1 ▸ hc1, hlv.2 ▸ ht0, hlv.2 ▸ ht1⟩
  · exact ⟨le_refl 0, by norm_num [createAnimationState], le_refl 0,
      by norm_num [createAnimationState]⟩

/-- Closed witness for `engine_ops_preserve_range` at the freshly created
state and concrete operation arguments. -/
theorem engine_ops_preserve_range_witness :
    levelsInRange createAnimationState ∧
      ((levelsInRange (animateDimLevel createAnimationState 2 500 0).1 ∧
        ∀ v ∈ (animateDimLevel createAnimationState 2 500 0).2, 0 ≤ v ∧ v ≤ 1) ∧
      (levelsInRange (stepFrame createAnimationState 16).1 ∧
        ∀ v ∈ (stepFrame createAnimationState 16).2, 0 ≤ v ∧ v ≤ 1) ∧
      (levelsInRange (setDimLevelImmediate createAnimationState (-3)).1 ∧
        ∀ v ∈ (setDimLevelImmediate createAnimationState (-3)).2, 0 ≤ v ∧ v ≤ 1) ∧
      levelsInRange (cancelAnimation createAnimationState) ∧
      levelsInRange createAnimationState) :=
  ⟨⟨le_refl 0, by norm_num [createAnimationState], le_refl 0,
      by norm_num [createAnimationState]⟩,
    engine_ops_preserve_range createAnimationState 2 500 0 16 (-3)
      ⟨le_refl 0, by norm_num [createAnimationState], le_refl 0,
        by norm_num [createAnimationState]⟩⟩

/-- Claim C4: from an Idle state, a request whose (clamped, in-range)
target is within 5% of the current target is a strict no-op — the state
is returned unchanged and `onUpdate` is never invoked; a request at
distance at least 5% enters Animating (a frame is scheduled, the target
is stored, still without invoking `onUpdate`), any frame arriving before
`duration` has elapsed keeps it Animating, and the first frame at or
after `startTime + duration` settles with `currentLevel = targetLevel`
and the frame handle cleared. -/
theorem engine_request_behavior (s : EngineState) (t d now : ℚ)
    (hidle : s.frameId = none) (ht0 : 0 ≤ t) (ht1 : t ≤ 1) :
    (|t - s.targetLevel| < 5 / 100 → animateDimLevel s t d now = (s, [])) ∧
    (5 / 100 ≤ |t - s.targetLevel| →
      (animateDimLevel s t d now).1.frameId ≠ none ∧
      (animateDimLevel s t d now).1.targetLevel = t ∧
      (animateDimLevel s t d now).2 = [] ∧
      (0 < d → ∀ tfin, now + d ≤ tfin →
        (stepFrame (animateDimLevel s t d now).1 tfin).1.frameId = none ∧
        (stepFrame (animateDimLevel s t d now).1 tfin).1.currentLevel = t ∧
        (stepFrame (animateDimLevel s t d now).1 tfin).1.targetLevel = t) ∧
      (0 < d → ∀ tmid, tmid - now < d →
        (stepFrame (animateDimLevel s t d now).1 tmid).1.frameId ≠ none)) := by
  have hct : clamp t 0 1 = t := clamp01_eq_self ht0 ht1
  constructor
  · intro hdb
    have : |clamp t 0 1 - s.targetLevel| < 5 / 100 := by rw [hct]; exact hdb
    simp [animateDimLevel, this]
  · intro hdb
    have hdb' : ¬ |clamp t 0 1 - s.targetLevel| < 5 / 100 := by
      rw [hct]; exact not_lt.mpr hdb
    have hres : (animateDimLevel s t d now).1 =
        { frameId := some 0, currentLevel := s.currentLevel, targetLevel := t,
          startLevel := clamp s.currentLevel 0 1, startTime := now, duration := d } := by
      simp only [animateDimLevel, hdb', if_false]
      rw [cancelAnimation_of_idle (by simpa using hidle)]
      simp [hct]
    refine ⟨by rw [hres]; simp, by rw [hres], by simp [animateDimLevel, hdb'], ?_, ?_⟩
    · intro hd tfin htfin
      rw [hres]
      have hprog : min ((tfin - now) / d) 1 = 1 := by
        have : (1 : ℚ) ≤ (tfin - now) / d := (le_div_iff₀ hd).mpr (by linarith)
        exact min_eq_right this
      simp only [stepFrame]
      rw [hprog]
      have harith : clamp s.currentLevel 0 1 + (t - clamp s.currentLevel 0 1) * 1 = t := by
        ring
      rw [harith, clamp01_eq_self ht0 ht1]
      simp
    · intro hd tmid htmid
      rw [hres]
      have hprog : min ((tmid - now) / d) 1 < 1 :=
        lt_of_le_of_lt (min_le_left _ _) ((div_lt_one hd).mpr (by linarith))
      simp only [stepFrame]
      rw [if_pos hprog]
      simp

/-- Closed witness for `engine_request_behavior` at the freshly created
Idle state and a request of 1/2 over 500 time units. -/
theorem engine_request_behavior_witness :
    ((|(1 / 2 : ℚ) - createAnimationState.targetLevel| < 5 / 100 →
        animateDimLevel createAnimationState (1 / 2) 500 0 = (createAnimationState, [])) ∧
     (5 / 100 ≤ |(1 / 2 : ℚ) - createAnimationState.targetLevel| →
        (animateDimLevel createAnimationState (1 / 2) 500 0).1.frameId ≠ none ∧
        (animateDimLevel createAnimationState (1 / 2) 500 0).1.targetLevel = 1 / 2 ∧
        (animateDimLevel createAnimationState (1 / 2) 500 0).2 = [] ∧
        (0 < (500 : ℚ) → ∀ tfin, (0 : ℚ) + 500 ≤ tfin →
          (stepFrame (animateDimLevel createAnimationState (1 / 2) 500 0).1 tfin).1.frameId
              = none ∧
          (stepFrame (animateDimLevel createAnimationState (1 / 2) 500 0).1
              tfin).1.currentLevel = 1 / 2 ∧
          (stepFrame (animateDimLevel createAnimationState (1 / 2) 500 0).1
              tfin).1.targetLevel = 1 / 2) ∧
        (0 < (500 : ℚ) → ∀ tmid, tmid - 0 < 500 →
          (stepFrame (animateDimLevel createAnimationState (1 / 2) 500 0).1 tmid).1.frameId
            ≠ none))) :=
  engine_request_behavior createAnimationState (1 / 2) 500 0 rfl (by norm_num) (by norm_num)

/-- Claim C2: in a control-loop cycle with the site enabled, a
blacklisted hostname forces the target dim amount to 0 without sampling
brightness (this holds even when the hostname is also whitelisted, since
the blacklist test short-circuits first); a whitelisted, non-blacklisted
hostname gets the effective `dimIntensity` as target, for every sampled
brightness including 0. -/
theorem checkAndDim_list_overrides (hostname : String) (raw now : ℚ) (s : ContentState)
    (hguard : s.isChecking = false)
    (hen : (getEffectiveSettings s.settings hostname).enabled = true) :
    (isBlacklisted s.settings hostname = true →
      (checkAndDim hostname raw now s).2 = (some 0, false)) ∧
    (isBlacklisted s.settings hostname = false →
      isWhitelisted s.settings hostname = true →
      (checkAndDim hostname raw now s).2 =
        (some (getEffectiveSettings s.settings hostname).dimIntensity, true)) := by
  constructor
  · intro hbl
    simp only [checkAndDim, hguard, Bool.false_eq_true, if_false, hen, hbl,
      Bool.not_true, Bool.false_or, if_true]
    split_ifs <;> rfl
  · intro hbl hwl
    simp only [checkAndDim, hguard, Bool.false_eq_true, if_false, hen, hbl, hwl,
      Bool.not_true, Bool.false_or, Bool.or_false, if_true]
    split_ifs <;> rfl

/-- A settings snapshot used to witness the override claims. -/
def demoSettings (bl wl : List String) : Settings :=
  { enabled := true, dimIntensity := 3 / 10, brightnessThreshold := 3 / 5,
    dynamicMode := true, smoothing := true, smoothingDuration := 500,
    siteSettings := [], blacklist := bl, whitelist := wl }

/-- A fresh content-script state over `demoSettings`. -/
def demoState (bl wl : List String) : ContentState :=
  { settings := demoSettings bl wl, isChecking := false, lastBrightness := none,
    smoothedBrightness := none, lastAppliedDim := 0, anim := createAnimationState }

/-- Closed witness for `checkAndDim_list_overrides`: a hostname on both
lists is driven to 0 without sampling, and a whitelisted hostname is
driven to the configured intensity at measured brightness 0. -/
theorem checkAndDim_list_overrides_witness :
    (checkAndDim "site.example" 0 0
        (demoState ["site.example"] ["site.example"])).2 = (some 0, false) ∧
    (checkAndDim "site.example" 0 0 (demoState [] ["site.example"])).2 =
      (some (3 / 10), true) :=
  ⟨(checkAndDim_list_overrides "site.example" 0 0
      (demoState ["site.example"] ["site.example"]) rfl rfl).1 (by decide),
   (checkAndDim_list_overrides "site.example" 0 0
      (demoState [] ["site.example"]) rfl rfl).2 (by decide) (by decide)⟩

/-- The configuration of the end-to-end smoothing scenario:
`{enabled, dimIntensity 0.5, threshold 0.6, dynamicMode}`. -/
def scenarioSettings : Settings :=
  { enabled := true, dimIntensity := 1 / 2, brightnessThreshold := 3 / 5,
    dynamicMode := true, smoothing := true, smoothingDuration := 500,
    siteSettings := [], blacklist := [], whitelist := [] }

/-- The initial content-script state of the scenario: no smoothed value
yet, nothing applied. -/
def scenarioState : ContentState :=
  { settings := scenarioSettings, isChecking := false, lastBrightness := none,
    smoothedBrightness := none, lastAppliedDim := 0, anim := createAnimationState }

/-- First scenario cycle at raw brightness 0.9. -/
def cycle1 : ContentState × Option ℚ × Bool :=
  checkAndDim "news.example" (9 / 10) 0 scenarioState

/-- Second scenario cycle at raw brightness 0.9. -/
def cycle2 : ContentState × Option ℚ × Bool :=
  checkAndDim "news.example" (9 / 10) 3000 cycle1.1

/-- Third scenario cycle at raw brightness 0.9. -/
def cycle3 : ContentState × Option ℚ × Bool :=
  checkAndDim "news.example" (9 / 10) 6000 cycle2.1

/-- The animation state after the first scenario cycle requests level 3/8. -/
def animAfterRequest : EngineState :=
  { frameId := some 0, currentLevel := 0, targetLevel := 3 / 8,
    startLevel := 0, startTime := 0, duration := 500 }

/-- The content-script state after the first scenario cycle. -/
def stateAfterCycle1 : ContentState :=
  { settings := scenarioSettings, isChecking := false,
    lastBrightness := some (9 / 10), smoothedBrightness := some (9 / 10),
    lastAppliedDim := 3 / 8, anim := animAfterRequest }

lemma abs_three_eighths : |(3 : ℚ) / 8| = 3 / 8 := abs_of_nonneg (by norm_num)

lemma cycle1_eq : cycle1 = (stateAfterCycle1, some (3 / 8), true) := by
  norm_num [cycle1, scenarioState, scenarioSettings, checkAndDim, getEffectiveSettings,
    abs_three_eighths,
    isBlacklisted, isWhitelisted, matchesAnyPattern, setDimLevel, effDuration,
    animateDimLevel, cancelAnimation, createAnimationState, clamp, calculateDimAmount,
    stateAfterCycle1, animAfterRequest]

lemma cycle2_eq : cycle2 = (stateAfterCycle1, some (3 / 8), true) := by
  rw [cycle2, cycle1_eq]
  norm_num [scenarioSettings, checkAndDim, getEffectiveSettings, abs_three_eighths,
    isBlacklisted, isWhitelisted, matchesAnyPattern, setDimLevel, effDuration,
    animateDimLevel, cancelAnimation, clamp, calculateDimAmount,
    stateAfterCycle1, animAfterRequest]

lemma cycle3_eq : cycle3 = (stateAfterCycle1, some (3 / 8), true) := by
  rw [cycle3, cycle2_eq]
  norm_num [scenarioSettings, checkAndDim, getEffectiveSettings, abs_three_eighths,
    isBlacklisted, isWhitelisted, matchesAnyPattern, setDimLevel, effDuration,
    animateDimLevel, cancelAnimation, clamp, calculateDimAmount,
    stateAfterCycle1, animAfterRequest]

/-- Claim C7: the exponential smoothing sets `smoothed = raw` on the very
first sample and `smoothed = 0.3 * raw + 0.7 * prev` afterwards, and in
the end-to-end scenario (enabled, intensity 0.5, threshold 0.6, dynamic
mode, raw brightness 0.9 on three cycles from no smoothed value) each
cycle smooths to 0.9 and computes dim amount 3/8 = 0.375. -/
theorem checkAndDim_smoothing (hostname : String) (raw now : ℚ) (s : ContentState)
    (hguard : s.isChecking = false)
    (hen : (getEffectiveSettings s.settings hostname).enabled = true)
    (hbl : isBlacklisted s.settings hostname = false) :
    ((s.smoothedBrightness = none →
        (checkAndDim hostname raw now s).1.smoothedBrightness = some raw) ∧
     (∀ prev, s.smoothedBrightness = some prev →
        (checkAndDim hostname raw now s).1.smoothedBrightness =
          some (3 / 10 * raw + 7 / 10 * prev))) ∧
    (cycle1.1.smoothedBrightness = some (9 / 10) ∧
     cycle2.1.smoothedBrightness = some (9 / 10) ∧
     cycle3.1.smoothedBrightness = some (9 / 10) ∧
     cycle1.2.1 = some (3 / 8) ∧ cycle2.2.1 = some (3 / 8) ∧
     cycle3.2.1 = some (3 / 8)) := by
  constructor
  · constructor
    · intro hsmooth
      simp only [checkAndDim, hguard, Bool.false_eq_true, if_false, hen, hbl,
        Bool.not_true, Bool.false_or, hsmooth]
      split_ifs <;> rfl
    · intro prev hsmooth
      simp only [checkAndDim, hguard, Bool.false_eq_true, if_false, hen, hbl,
        Bool.not_true, Bool.false_or, hsmooth]
      split_ifs <;> · simp only []
                      norm_num
  · simp [cycle1_eq, cycle2_eq, cycle3_eq, stateAfterCycle1]

/-- Closed witness for `checkAndDim_smoothing` at the scenario's first
cycle, whose guard, enablement and blacklist hypotheses all hold by
computation. -/
theorem checkAndDim_smoothing_witness :
    ((scenarioState.smoothedBrightness = none →
        (checkAndDim "news.example" (9 / 10) 0 scenarioState).1.smoothedBrightness =
          some (9 / 10)) ∧
     (∀ prev, scenarioState.smoothedBrightness = some prev →
        (checkAndDim "news.example" (9 / 10) 0 scenarioState).1.smoothedBrightness =
          some (3 / 10 * (9 / 10) + 7 / 10 * prev))) ∧
    (cycle1.1.smoothedBrightness = some (9 / 10) ∧
     cycle2.1.smoothedBrightness = some (9 / 10) ∧
     cycle3.1.smoothedBrightness = some (9 / 10) ∧
     cycle1.2.1 = some (3 / 8) ∧ cycle2.2.1 = some (3 / 8) ∧
     cycle3.2.1 = some (3 / 8)) :=
  checkAndDim_smoothing "news.example" (9 / 10) 0 scenarioState rfl rfl rfl

lemma gridFold_bounds (env : SampleEnv)
    (hp : ∀ x y s, env.pointColor x y = some s →
      ∀ b, getColorBrightness s = some b → 0 ≤ b ∧ b ≤ 1) :
    ∀ (l : List (ℕ × ℕ)) (t c : ℚ), 0 ≤ t → t ≤ c →
      0 ≤ (l.foldl (gridStep env) (t, c)).1 ∧
        (l.foldl (gridStep env) (t, c)).1 ≤ (l.foldl (gridStep env) (t, c)).2 ∧
        c ≤ (l.foldl (gridStep env) (t, c)).2 := by
  intro l
  induction l with
  | nil => intro t c h0 h1; exact ⟨h0, h1, le_refl c⟩
  | cons xy l ih =>
    intro t c h0 h1
    simp only [List.foldl_cons]
    rcases hcol : env.pointColor xy.1 xy.2 with _ | str
    · simpa [gridStep, hcol] using ih t c h0 h1
    · rcases hb : getColorBrightness str with _ | b
      · simpa [gridStep, hcol, hb] using ih t c h0 h1
      · have hbr := hp xy.1 xy.2 str hcol b hb
        have hstep : gridStep env (t, c) xy = (t + b, c + 1) := by
          simp [gridStep, hcol, hb]
        rw [hstep]
        have := ih (t + b) (c + 1) (by linarith [hbr.1]) (by linarith [hbr.2])
        exact ⟨this.1, this.2.1, le_trans (by linarith) this.2.2⟩

lemma gridFold_no_signal (env : SampleEnv)
    (hp : ∀ x y s, env.pointColor x y = some s → getColorBrightness s = none) :
    ∀ (l : List (ℕ × ℕ)) (t c : ℚ), l.foldl (gridStep env) (t, c) = (t, c) := by
  intro l
  induction l with
  | nil => intro t c; rfl
  | cons xy l ih =>
    intro t c
    simp only [List.foldl_cons]
    rcases hcol : env.pointColor xy.1 xy.2 with _ | str
    · rw [show gridStep env (t, c) xy = (t, c) by simp [gridStep, hcol]]
      exact ih t c
    · rw [show gridStep env (t, c) xy = (t, c) by simp [gridStep, hcol, hp xy.1 xy.2 str hcol]]
      exact ih t c

/-- An environment whose single accepted color string has channel values
far above 255: the topmost element at the first grid point reports
`rgb(2550, 0, 0)`, there is no body and the root background is
transparent. -/
def overBrightEnv : SampleEnv :=
  { pointColor := fun x y => if x = 0 ∧ y = 0 then some "rgb(2550, 0, 0)" else none,
    bodyColor := none,
    htmlColor := "transparent" }

lemma getColorBrightness_overBright :
    getColorBrightness "rgb(2550, 0, 0)" = some (299 / 100) := by
  have h := getColorBrightness_rgbString ['2', '5', '5', '0'] [' '] ['0'] [' '] ['0']
    (by decide) (by decide) (by decide) (by decide) (by decide) (by decide)
    (by decide) (by decide)
  have hstr : rgbString ['2', '5', '5', '0'] [' '] ['0'] [' '] ['0'] = "rgb(2550, 0, 0)" := by
    decide
  rw [hstr] at h
  rw [h]
  have h1 : digitsToNat ['2', '5', '5', '0'] = 2550 := by decide
  have h2 : digitsToNat ['0'] = 0 := by decide
  rw [h1, h2]
  norm_num [luminance]

/-- Claim C8 counterexample: on `overBrightEnv` — an environment whose
oracles supply an arbitrary (non-browser-normalized) color string —
`samplePageBrightness` returns 299/100 = 2.99, which is not in `[0, 1]`. -/
theorem samplePageBrightness_out_of_range :
    samplePageBrightness overBrightEnv = 299 / 100 ∧
      ¬ samplePageBrightness overBrightEnv ≤ 1 := by
  have hgrid : gridAccum overBrightEnv = (299 / 100, 1) := by
    have h00 : overBrightEnv.pointColor 0 0 = some "rgb(2550, 0, 0)" := rfl
    have hsplit : gridPoints = (0, 0) :: ((List.range 9).map fun y => (0, y + 1)) ++
        ((List.range 9).flatMap fun x => (List.range 10).map fun y => (x + 1, y)) := by
      decide
    rw [gridAccum, hsplit]
    simp only [List.foldl_cons, List.foldl_append]
    rw [show gridStep overBrightEnv (0, 0) (0, 0) = (299 / 100, 1) by
      simp [gridStep, h00, getColorBrightness_overBright]]
    have hrest1 : ∀ p ∈ (List.range 9).map fun y => ((0 : ℕ), y + 1),
        overBrightEnv.pointColor p.1 p.2 = none := by decide
    have hrest2 : ∀ p ∈ (List.range 9).flatMap fun x => (List.range 10).map fun y => (x + 1, y),
        overBrightEnv.pointColor p.1 p.2 = none := by decide
    have hfold : ∀ (l : List (ℕ × ℕ)) (t c : ℚ),
        (∀ p ∈ l, overBrightEnv.pointColor p.1 p.2 = none) →
        l.foldl (gridStep overBrightEnv) (t, c) = (t, c) := by
      intro l
      induction l with
      | nil => intro t c _; rfl
      | cons xy l ih =>
        intro t c hl
        simp only [List.foldl_cons]
        rw [show gridStep overBrightEnv (t, c) xy = (t, c) by
          simp [gridStep, hl xy (by simp)]]
        exact ih t c fun p hp => hl p (by simp [hp])
    rw [hfold _ _ _ hrest1, hfold _ _ _ hrest2]
  rw [show samplePageBrightness overBrightEnv =
      ((299 : ℚ) / 100) / 1 by
    simp only [samplePageBrightness, hgrid]
    norm_num [overBrightEnv, getColorBrightness]]
  norm_num

/-- Claim C8, amended: whenever every color string the environment
supplies parses to a brightness in `[0, 1]` (as browser-normalized
`rgb`/`rgba` strings with channels at most 255 do),
`samplePageBrightness` returns a value in `[0, 1]`; for arbitrary
strings the result can exceed 1 (previous theorem).  Unconditionally,
when zero samples are accepted — every grid point and the body and root
backgrounds yield no signal — the result is exactly the neutral default
1/2. -/
theorem samplePageBrightness_range (env : SampleEnv)
    (hp : ∀ x y s, env.pointColor x y = some s →
      ∀ b, getColorBrightness s = some b → 0 ≤ b ∧ b ≤ 1)
    (hbody : ∀ s, env.bodyColor = some s →
      ∀ b, getColorBrightness s = some b → 0 ≤ b ∧ b ≤ 1)
    (hhtml : ∀ b, getColorBrightness env.htmlColor = some b → 0 ≤ b ∧ b ≤ 1) :
    (0 ≤ samplePageBrightness env ∧ samplePageBrightness env ≤ 1) ∧
    ((∀ x y s, env.pointColor x y = some s → getColorBrightness s = none) →
      (∀ s, env.bodyColor = some s → getColorBrightness s = none) →
      getColorBrightness env.htmlColor = none →
      samplePageBrightness env = 1 / 2) := by
  constructor
  · have key : ∀ T C : ℚ, 0 ≤ T → T ≤ C →
        0 ≤ (if 0 < C then T / C else 1 / 2) ∧ (if 0 < C then T / C else 1 / 2) ≤ 1 := by
      intro T C hT hTC
      split_ifs with hpos
      · exact ⟨div_nonneg hT (le_of_lt hpos), (div_le_one hpos).mpr hTC⟩
      · norm_num
    have hacc := gridFold_bounds env hp gridPoints 0 0 (le_refl 0) (le_refl 0)
    rw [← gridAccum] at hacc
    rcases htc : gridAccum env with ⟨t, c⟩
    rw [htc] at hacc
    obtain ⟨ht0, htc', hc0⟩ := hacc
    simp only at ht0 htc' hc0
    have hw1 : (1 : ℚ) ≤ max c 1 := le_max_right c 1
    have hwc : c ≤ max c 1 := le_max_left c 1
    have hw0 : (0 : ℚ) ≤ max c 1 := le_trans zero_le_one hw1
    rw [samplePageBrightness, htc]
    rcases hbc : env.bodyColor with _ | bstr
    · rcases hhc : getColorBrightness env.htmlColor with _ | hb
      · simp only [hbc, hhc]
        exact key t c ht0 htc'
      · have hhb := hhtml hb hhc
        simp only [hbc, hhc]
        refine key _ _ ?_ ?_
        · nlinarith [mul_nonneg (mul_nonneg hhb.1 hw0) (show (0 : ℚ) ≤ 1 / 2 by norm_num)]
        · nlinarith [mul_nonneg (show (0 : ℚ) ≤ 1 - hb by linarith [hhb.2]) hw0]
    · rcases hbb : getColorBrightness bstr with _ | bb
      · rcases hhc : getColorBrightness env.htmlColor with _ | hb
        · simp only [hbc, hbb, hhc]
          exact key t c ht0 htc'
        · have hhb := hhtml hb hhc
          simp only [hbc, hbb, hhc]
          refine key _ _ ?_ ?_
          · nlinarith [mul_nonneg (mul_nonneg hhb.1 hw0) (show (0 : ℚ) ≤ 1 / 2 by norm_num)]
          · nlinarith [mul_nonneg (show (0 : ℚ) ≤ 1 - hb by linarith [hhb.2]) hw0]
      · have hbb' := hbody bstr hbc bb hbb
        rcases hhc : getColorBrightness env.htmlColor with _ | hb
        · simp only [hbc, hbb, hhc]
          refine key _ _ ?_ ?_
          · nlinarith [mul_nonneg (mul_nonneg hbb'.1 hw0) (show (0 : ℚ) ≤ 1 / 2 by norm_num)]
          · nlinarith [mul_nonneg (show (0 : ℚ) ≤ 1 - bb by linarith [hbb'.2]) hw0]
        · have hhb := hhtml hb hhc
          simp only [hbc, hbb, hhc]
          refine key _ _ ?_ ?_
          · nlinarith [mul_nonneg (mul_nonneg hbb'.1 hw0) (show (0 : ℚ) ≤ 1 / 2 by norm_num),
              mul_nonneg (mul_nonneg hhb.1 hw0) (show (0 : ℚ) ≤ 1 / 2 by norm_num)]
          · nlinarith [mul_nonneg (show (0 : ℚ) ≤ 1 - bb by linarith [hbb'.2]) hw0,
              mul_nonneg (show (0 : ℚ) ≤ 1 - hb by linarith [hhb.2]) hw0]
  · intro hp0 hbody0 hhtml0
    rw [samplePageBrightness, gridAccum, gridFold_no_signal env hp0 gridPoints 0 0]
    rcases hbc : env.bodyColor with _ | bstr
    · simp [hhtml0]
    · simp [hhtml0, hbody0 bstr hbc]

/-- An environment in which no point, body or root yields any color signal. -/
def silentEnv : SampleEnv :=
  { pointColor := fun _ _ => none, bodyColor := none, htmlColor := "transparent" }

/-- Closed witness for `samplePageBrightness_range` on the silent
environment, where every hypothesis holds vacuously. -/
theorem samplePageBrightness_range_witness :
    ((0 ≤ samplePageBrightness silentEnv ∧ samplePageBrightness silentEnv ≤ 1) ∧
     ((∀ x y s, silentEnv.pointColor x y = some s → getColorBrightness s = none) →
      (∀ s, silentEnv.bodyColor = some s → getColorBrightness s = none) →
      getColorBrightness silentEnv.htmlColor = none →
      samplePageBrightness silentEnv = 1 / 2)) :=
  samplePageBrightness_range silentEnv
    (fun x y s hs => by simp [silentEnv] at hs)
    (fun s hs => by simp [silentEnv] at hs)
    (fun b hb => by simp [silentEnv, getColorBrightness] at hb)

/-- Claim C3 counterexample: `"rgba(255, 0, 0, 0)"` is a fully
transparent color (alpha component 0), yet `getColorBrightness` parses
it and returns 0.299 rather than no signal; and `"rgb(10 , 20, 30)"`
carries whitespace before a comma — between components — yet yields no
signal, because the code's pattern admits whitespace only after each
comma. -/
theorem getColorBrightness_claim_counterexample :
    getColorBrightness "rgba(255, 0, 0, 0)" = some (299 / 1000) ∧
    getColorBrightness "rgba(255, 0, 0, 0)" ≠ none ∧
    getColorBrightness "rgb(10 , 20, 30)" = none := by
  have h := getColorBrightness_rgbaString ['2', '5', '5'] [' '] ['0'] [' '] ['0'] [' '] ['0']
    (by decide) (by decide) (by decide) (by decide) (by decide) (by decide)
    (by decide) (by decide) (by decide) (by decide) (by decide) (by decide)
  have hstr : rgbaString ['2', '5', '5'] [' '] ['0'] [' '] ['0'] [' '] ['0'] =
      "rgba(255, 0, 0, 0)" := by decide
  rw [hstr] at h
  have h255 : digitsToNat ['2', '5', '5'] = 255 := by decide
  have h0 : digitsToNat ['0'] = 0 := by decide
  rw [h255, h0] at h
  have hval : getColorBrightness "rgba(255, 0, 0, 0)" = some (299 / 1000) := by
    rw [h]
    norm_num [luminance]
  refine ⟨hval, by rw [hval]; simp, ?_⟩
  rw [getColorBrightness, if_neg (by decide),
    show findMatch ("rgb(10 , 20, 30)".data) = none from by decide]

/-- Claim C3, amended: `getColorBrightness` implements the color-parsing
contract with two qualifications forced by the counterexample: the
"fully transparent" guard rejects only the literal strings
`"transparent"` and `"rgba(0, 0, 0, 0)"` (other alpha-0 colors are
parsed with their alpha ignored), and whitespace is admitted only after
each comma, not elsewhere between components.  So qualified: every
`rgb(r,g,b)` and `rgba(r,g,b,a)` string with channels 0–255 (other than
the guarded literal) parses to
`0.299 * (r/255) + 0.587 * (g/255) + 0.114 * (b/255)` with alpha
ignored; the three spec examples evaluate as stated (the white example
exactly, hence within 0.001); and the empty string, the guarded
literals, named colors, hex and hsl forms yield no signal. -/
theorem getColorBrightness_contract :
    (∀ rs ws1 gs ws2 bs : List Char,
      rs ≠ [] → (∀ x ∈ rs, isDigitChar x = true) →
      (∀ x ∈ ws1, isJsSpace x = true) →
      gs ≠ [] → (∀ x ∈ gs, isDigitChar x = true) →
      (∀ x ∈ ws2, isJsSpace x = true) →
      bs ≠ [] → (∀ x ∈ bs, isDigitChar x = true) →
      digitsToNat rs ≤ 255 → digitsToNat gs ≤ 255 → digitsToNat bs ≤ 255 →
      getColorBrightness (rgbString rs ws1 gs ws2 bs) =
        some (luminance (digitsToNat rs) (digitsToNat gs) (digitsToNat bs))) ∧
    (∀ rs ws1 gs ws2 bs ws3 al : List Char,
      rs ≠ [] → (∀ x ∈ rs, isDigitChar x = true) →
      (∀ x ∈ ws1, isJsSpace x = true) →
      gs ≠ [] → (∀ x ∈ gs, isDigitChar x = true) →
      (∀ x ∈ ws2, isJsSpace x = true) →
      bs ≠ [] → (∀ x ∈ bs, isDigitChar x = true) →
      (∀ x ∈ ws3, isJsSpace x = true) →
      al ≠ [] → (∀ x ∈ al, isAlphaComponentChar x = true) →
      digitsToNat rs ≤ 255 → digitsToNat gs ≤ 255 → digitsToNat bs ≤ 255 →
      rgbaString rs ws1 gs ws2 bs ws3 al ≠ "rgba(0, 0, 0, 0)" →
      getColorBrightness (rgbaString rs ws1 gs ws2 bs ws3 al) =
        some (luminance (digitsToNat rs) (digitsToNat gs) (digitsToNat bs))) ∧
    getColorBrightness "" = none ∧
    getColorBrightness "transparent" = none ∧
    getColorBrightness "rgba(0, 0, 0, 0)" = none ∧
    getColorBrightness "rgb(0,0,0)" = some 0 ∧
    getColorBrightness "rgb(255,255,255)" = some 1 ∧
    getColorBrightness "rgb(255,0,0)" = some (299 / 1000) ∧
    getColorBrightness "red" = none ∧
    getColorBrightness "#ff0000" = none ∧
    getColorBrightness "hsl(120, 50%, 50%)" = none := by
  have hnone : ∀ s : String, s ≠ "" → s ≠ "transparent" → s ≠ "rgba(0, 0, 0, 0)" →
      findMatch s.data = none → getColorBrightness s = none := by
    intro s h1 h2 h3 h4
    rw [getColorBrightness, if_neg (by tauto), h4]
  have hsome : ∀ (s : String) (r g b : ℕ), s ≠ "" → s ≠ "transparent" →
      s ≠ "rgba(0, 0, 0, 0)" → findMatch s.data = some (r, g, b) →
      getColorBrightness s = some (luminance r g b) := by
    intro s r g b h1 h2 h3 h4
    rw [getColorBrightness, if_neg (by tauto), h4]
  refine ⟨?_, ?_, rfl, rfl, rfl, ?_, ?_, ?_, ?_, ?_, ?_⟩
  · intro rs ws1 gs ws2 bs h1 h2 h3 h4 h5 h6 h7 h8 _ _ _
    exact getColorBrightness_rgbString rs ws1 gs ws2 bs h1 h2 h3 h4 h5 h6 h7 h8
  · intro rs ws1 gs ws2 bs ws3 al h1 h2 h3 h4 h5 h6 h7 h8 h9 h10 h11 _ _ _ hg
    exact getColorBrightness_rgbaString rs ws1 gs ws2 bs ws3 al h1 h2 h3 h4 h5 h6 h7 h8
      h9 h10 h11 hg
  · rw [hsome "rgb(0,0,0)" 0 0 0 (by decide) (by decide) (by decide) (by decide)]
    norm_num [luminance]
  · rw [hsome "rgb(255,255,255)" 255 255 255 (by decide) (by decide) (by decide)
      (by decide)]
    norm_num [luminance]
  · rw [hsome "rgb(255,0,0)" 255 0 0 (by decide) (by decide) (by decide) (by decide)]
    norm_num [luminance]
  · exact hnone "red" (by decide) (by decide) (by decide) (by decide)
  · exact hnone "#ff0000" (by decide) (by decide) (by decide) (by decide)
  · exact hnone "hsl(120, 50%, 50%)" (by decide) (by decide) (by decide) (by decide)

/-- Closed witness for `getColorBrightness_contract`, instantiating the
two parsing conjuncts at `"rgb(12, 3,45)"` and `"rgba(12, 3,45, 0.5)"`. -/
theorem getColorBrightness_contract_witness :
    getColorBrightness (rgbString ['1', '2'] [' '] ['3'] [] ['4', '5']) =
      some (luminance (digitsToNat ['1', '2']) (digitsToNat ['3'])
        (digitsToNat ['4', '5'])) ∧
    getColorBrightness
        (rgbaString ['1', '2'] [' '] ['3'] [] ['4', '5'] [' '] ['0', '.', '5']) =
      some (luminance (digitsToNat ['1', '2']) (digitsToNat ['3'])
        (digitsToNat ['4', '5'])) :=
  ⟨getColorBrightness_contract.1 ['1', '2'] [' '] ['3'] [] ['4', '5']
      (by decide) (by decide) (by decide) (by decide) (by decide) (by decide)
      (by decide) (by decide) (by decide) (by decide) (by decide),
   getColorBrightness_contract.2.1 ['1', '2'] [' '] ['3'] [] ['4', '5'] [' ']
      ['0', '.', '5']
      (by decide) (by decide) (by decide) (by decide) (by decide) (by decide)
      (by decide) (by decide) (by decide) (by decide) (by decide) (by decide)
      (by decide) (by decide) (by decide)⟩

end AutoDimmer
